import Mathlib

/-!
Verification of the video-processing service (src/app.py and src/main.py).

The heart of the service is `wait_for_file_processing` in src/app.py: a
bounded polling loop that repeatedly queries the remote state of an uploaded
asset until it becomes ACTIVE, fails, or a retry budget of 120 attempts is
exhausted.  We embed the poller as a function over an abstract sequence of
status observations (one per remote `client.files.get` call), and the two
`process_video` endpoint handlers as exception-passing state machines over an
abstract one-file filesystem.
-/

namespace AgentHack

/-- Result of one `client.files.get` call: either the call raises, or it
returns a status object.  `error` models `hasattr(st, 'error') and st.error`
being truthy; `state` is the raw state string. -/
structure FileStatus where
  error : Bool
  state : String
deriving DecidableEq, Repr

/-- One remote status lookup: it raises, or returns a `FileStatus`. -/
inductive Lookup where
  | raise : Lookup
  | ok : FileStatus → Lookup
deriving DecidableEq, Repr

/-- `max_retries = 120` from src/app.py line 36. -/
def max_retries : Nat := 120

/-- `retry_delay = 5` seconds from src/app.py line 37 (irrelevant to the
control flow; kept for fidelity). -/
def retry_delay : Nat := 5

/-- The `for attempt in range(max_retries)` loop of
`wait_for_file_processing` (src/app.py lines 65-106).  `obs i` is the result
of the i-th `client.files.get` call in temporal order (the loop starts at
index 1; index 0 is the initial lookup).  Each iteration performs exactly one
lookup; the second component counts the iterations executed.  Per the source:
an attached error returns False; state "ACTIVE" returns True; state "FAILED"
returns False; "PROCESSING" or any other state falls through to the sleep and
the next attempt; a raised lookup is caught, slept on, and retried. -/
def pollLoop (obs : Nat → Lookup) : Nat → Nat → Bool × Nat
  | _, 0 => (false, 0)
  | i, fuel + 1 =>
    match obs i with
    | .raise =>
      let r := pollLoop obs (i + 1) fuel
      (r.1, r.2 + 1)
    | .ok st =>
      if st.error then (false, 1)
      else if st.state == "ACTIVE" then (true, 1)
      else if st.state == "FAILED" then (false, 1)
      else
        let r := pollLoop obs (i + 1) fuel
        (r.1, r.2 + 1)

/-- `wait_for_file_processing` (src/app.py lines 34-106).  `hasName` models
`hasattr(file, 'name')`; `obs 0` is the initial status lookup of lines 50-63
(which checks only for an attached error), and the loop consumes `obs 1`,
`obs 2`, ....  Returns the boolean result together with the number of loop
attempts (loop status queries) consumed. -/
def wait_for_file_processing (hasName : Bool) (obs : Nat → Lookup) :
    Bool × Nat :=
  if !hasName then (false, 0)
  else
    match obs 0 with
    | .raise => (false, 0)
    | .ok st => if st.error then (false, 0) else pollLoop obs 1 max_retries

/-- A lookup on which the loop proceeds to the next attempt: a raised lookup,
or a status with no attached error whose state is neither "ACTIVE" nor
"FAILED". -/
def continues : Lookup → Bool
  | .raise => true
  | .ok st => !st.error && st.state != "ACTIVE" && st.state != "FAILED"

/-- A successful lookup that the loop treats as still-in-progress:
no attached error and a state other than "ACTIVE" and "FAILED"
("PROCESSING" or any unrecognized value). -/
def stillInProgress : Lookup → Bool
  | .raise => false
  | .ok st => !st.error && st.state != "ACTIVE" && st.state != "FAILED"

/-- A status on which the loop stops on the attempt observing it. -/
def isTerminal (st : FileStatus) : Bool :=
  st.error || st.state == "ACTIVE" || st.state == "FAILED"

/-- The boolean the loop returns upon a terminal status: True exactly when no
error is attached and the state is "ACTIVE". -/
def terminalResult (st : FileStatus) : Bool :=
  !st.error && st.state == "ACTIVE"

theorem stillInProgress_continues {l : Lookup}
    (h : stillInProgress l = true) : continues l = true := by
  cases l with
  | raise => rfl
  | ok st => simpa [stillInProgress, continues] using h

/-- If every observation the loop can reach keeps it going, the loop runs its
whole fuel and returns failure, having consumed exactly `fuel` attempts. -/
theorem pollLoop_exhaust (obs : Nat → Lookup) :
    ∀ (fuel i : Nat), (∀ j, j < fuel → continues (obs (i + j)) = true) →
      pollLoop obs i fuel = (false, fuel) := by
  intro fuel
  induction fuel with
  | zero => intro i _; rfl
  | succ f ih =>
    intro i h
    have h0 : continues (obs i) = true := by
      have := h 0 (Nat.succ_pos f)
      simpa using this
    have hrest : ∀ j, j < f → continues (obs (i + 1 + j)) = true := by
      intro j hj
      have := h (j + 1) (Nat.succ_lt_succ hj)
      have harith : i + (j + 1) = i + 1 + j := by omega
      rwa [harith] at this
    have hrec := ih (i + 1) hrest
    cases hl : obs i with
    | raise =>
      simp only [pollLoop, hl, hrec]
    | ok st =>
      rw [hl] at h0
      simp only [continues, Bool.and_eq_true, Bool.not_eq_true',
        bne_iff_ne, ne_eq] at h0
      obtain ⟨⟨he, ha⟩, hf⟩ := h0
      simp only [pollLoop, hl, he, beq_iff_eq, ha, hf, if_false,
        Bool.false_eq_true, hrec]

/-- If the first `k` reachable observations keep the loop going and the
`(k+1)`-st is a successful lookup of a terminal status, the loop stops there:
it returns `terminalResult` of that status after exactly `k + 1` attempts. -/
theorem pollLoop_terminal (obs : Nat → Lookup) :
    ∀ (k i fuel : Nat), (∀ j, j < k → continues (obs (i + j)) = true) →
      ∀ st, obs (i + k) = .ok st → isTerminal st = true → k < fuel →
        pollLoop obs i fuel = (terminalResult st, k + 1) := by
  intro k
  induction k with
  | zero =>
    intro i fuel _ st hobs hterm hlt
    obtain ⟨f, rfl⟩ : ∃ f, fuel = f + 1 :=
      ⟨fuel - 1, by omega⟩
    have hobs' : obs i = .ok st := by simpa using hobs
    simp only [isTerminal, Bool.or_eq_true, beq_iff_eq] at hterm
    by_cases he : st.error = true
    · simp [pollLoop, hobs', he, terminalResult]
    · have he' : st.error = false := by
        cases h : st.error
        · rfl
        · exact absurd h he
      rcases hterm with (hterm | ha) | hf
      · exact absurd hterm he
      · simp [pollLoop, hobs', he', ha, terminalResult]
      · by_cases hact : st.state = "ACTIVE"
        · simp [pollLoop, hobs', he', hact, terminalResult]
        · simp [pollLoop, hobs', he', hact, hf, terminalResult]
  | succ k ih =>
    intro i fuel hpre st hobs hterm hlt
    obtain ⟨f, rfl⟩ : ∃ f, fuel = f + 1 :=
      ⟨fuel - 1, by omega⟩
    have h0 : continues (obs i) = true := by
      have := hpre 0 (Nat.succ_pos k)
      simpa using this
    have hpre' : ∀ j, j < k → continues (obs (i + 1 + j)) = true := by
      intro j hj
      have := hpre (j + 1) (Nat.succ_lt_succ hj)
      have harith : i + (j + 1) = i + 1 + j := by omega
      rwa [harith] at this
    have hobs' : obs (i + 1 + k) = .ok st := by
      have harith : i + (k + 1) = i + 1 + k := by omega
      rwa [harith] at hobs
    have hrec := ih (i + 1) f hpre' st hobs' hterm (by omega)
    cases hl : obs i with
    | raise =>
      simp only [pollLoop, hl, hrec]
    | ok st0 =>
      rw [hl] at h0
      simp only [continues, Bool.and_eq_true, Bool.not_eq_true',
        bne_iff_ne, ne_eq] at h0
      obtain ⟨⟨he, ha⟩, hf⟩ := h0
      simp only [pollLoop, hl, he, beq_iff_eq, ha, hf, if_false,
        Bool.false_eq_true, hrec]

/-- The poller, once past the initial lookup, stops at the first terminal
status: with earlier loop observations all non-terminal and observation `N`
a terminal status, it returns `terminalResult` after exactly `N` attempts. -/
theorem wait_terminal (obs : Nat → Lookup) (st0 stN : FileStatus) (N : Nat)
    (h0 : obs 0 = .ok st0) (he0 : st0.error = false)
    (hpre : ∀ j, j < N → 1 ≤ j → continues (obs j) = true)
    (hN : obs N = .ok stN) (ht : isTerminal stN = true)
    (h1 : 1 ≤ N) (hle : N ≤ max_retries) :
    wait_for_file_processing true obs = (terminalResult stN, N) := by
  have hpre' : ∀ j, j < N - 1 → continues (obs (1 + j)) = true := by
    intro j hj
    exact hpre (1 + j) (by omega) (by omega)
  have hN' : obs (1 + (N - 1)) = .ok stN := by
    have harith : 1 + (N - 1) = N := by omega
    rwa [harith]
  have hk : N - 1 < max_retries := by
    have : max_retries = 120 := rfl
    omega
  have := pollLoop_terminal obs (N - 1) 1 max_retries hpre' stN hN' ht hk
  have harith : N - 1 + 1 = N := by omega
  rw [harith] at this
  simpa [wait_for_file_processing, h0, he0] using this

/-- C1: for every status-observation sequence in which the poller observes
the state FAILED on some attempt, `wait_for_file_processing` returns failure
immediately upon observing FAILED, performing no further status queries and
consuming none of the remaining retry budget: exactly `N` loop attempts are
consumed when FAILED is first observed on attempt `N`. -/
theorem awaitReady_stops_on_failed (obs : Nat → Lookup)
    (st0 stN : FileStatus) (N : Nat)
    (h0 : obs 0 = .ok st0) (he0 : st0.error = false)
    (hpre : ∀ j, j < N → 1 ≤ j → continues (obs j) = true)
    (hN : obs N = .ok stN) (hfail : stN.state = "FAILED")
    (h1 : 1 ≤ N) (hle : N ≤ max_retries) :
    wait_for_file_processing true obs = (false, N) := by
  have ht : isTerminal stN = true := by
    simp [isTerminal, hfail]
  have hfa : (("FAILED" : String) == "ACTIVE") = false := by decide
  have hres : terminalResult stN = false := by
    simp [terminalResult, hfail, hfa]
  have := wait_terminal obs st0 stN N h0 he0 hpre hN ht h1 hle
  rwa [hres] at this

/-- Witness for C1: FAILED first observed on loop attempt 3; the poller
returns failure with exactly 3 attempts consumed (117 of 120 unused). -/
theorem awaitReady_stops_on_failed_witness :
    wait_for_file_processing true
      (fun j => if j < 3 then Lookup.ok ⟨false, "PROCESSING"⟩
                else Lookup.ok ⟨false, "FAILED"⟩) = (false, 3) :=
  awaitReady_stops_on_failed _ ⟨false, "PROCESSING"⟩ ⟨false, "FAILED"⟩ 3
    (by decide) (by decide) (by decide) (by decide) (by decide)
    (by decide) (by decide)

/-- C2: for every status-observation sequence that never leaves the
still-in-progress states (PROCESSING, or any state other than ACTIVE and
FAILED, which the loop treats the same way), `wait_for_file_processing`
terminates and returns failure after exactly `max_retries = 120` loop
attempts and no more. -/
theorem awaitReady_exhausts_budget (obs : Nat → Lookup) (st0 : FileStatus)
    (h0 : obs 0 = .ok st0) (he0 : st0.error = false)
    (hall : ∀ j, 1 ≤ j → stillInProgress (obs j) = true) :
    wait_for_file_processing true obs = (false, 120) := by
  have h : ∀ j, j < max_retries → continues (obs (1 + j)) = true := by
    intro j _
    exact stillInProgress_continues (hall (1 + j) (by omega))
  have := pollLoop_exhaust obs max_retries 1 h
  simpa [wait_for_file_processing, h0, he0] using this

/-- Witness for C2: a service that reports PROCESSING forever; the poller
fails after exactly 120 attempts. -/
theorem awaitReady_exhausts_budget_witness :
    wait_for_file_processing true
      (fun _ => Lookup.ok ⟨false, "PROCESSING"⟩) = (false, 120) :=
  awaitReady_exhausts_budget _ ⟨false, "PROCESSING"⟩ (by decide) (by decide)
    (fun _ _ => by decide)

/-- C3: if the remote service first reports ACTIVE (with no attached error)
on loop attempt `N` with `N ≤ max_retries`, `wait_for_file_processing`
returns success after exactly `N` loop attempts, never more. -/
theorem awaitReady_succeeds_at_first_active (obs : Nat → Lookup)
    (st0 stN : FileStatus) (N : Nat)
    (h0 : obs 0 = .ok st0) (he0 : st0.error = false)
    (hpre : ∀ j, j < N → 1 ≤ j → stillInProgress (obs j) = true)
    (hN : obs N = .ok stN) (heN : stN.error = false)
    (hact : stN.state = "ACTIVE")
    (h1 : 1 ≤ N) (hle : N ≤ max_retries) :
    wait_for_file_processing true obs = (true, N) := by
  have hpre' : ∀ j, j < N → 1 ≤ j → continues (obs j) = true :=
    fun j hj h1j => stillInProgress_continues (hpre j hj h1j)
  have ht : isTerminal stN = true := by
    simp [isTerminal, hact]
  have hres : terminalResult stN = true := by
    simp [terminalResult, hact, heN]
  have := wait_terminal obs st0 stN N h0 he0 hpre' hN ht h1 hle
  rwa [hres] at this

/-- Witness for C3: ACTIVE first reported on loop attempt 2; the poller
succeeds with exactly 2 attempts consumed. -/
theorem awaitReady_succeeds_at_first_active_witness :
    wait_for_file_processing true
      (fun j => if j < 2 then Lookup.ok ⟨false, "PROCESSING"⟩
                else Lookup.ok ⟨false, "ACTIVE"⟩) = (true, 2) :=
  awaitReady_succeeds_at_first_active _ ⟨false, "PROCESSING"⟩
    ⟨false, "ACTIVE"⟩ 2 (by decide) (by decide) (by decide) (by decide)
    (by decide) (by decide) (by decide) (by decide)

/-- C4: a status lookup that raises on some loop attempt `e` does not abort
the loop; if a later attempt `N ≤ max_retries` observes ACTIVE,
`wait_for_file_processing` still returns success, and the erroring attempt
counts against the budget: exactly `N` attempts (attempt `e` included) are
consumed. -/
theorem awaitReady_recovers_from_lookup_error (obs : Nat → Lookup)
    (st0 stN : FileStatus) (N e : Nat)
    (h0 : obs 0 = .ok st0) (he0 : st0.error = false)
    (he1 : 1 ≤ e) (heN : e < N) (hraise : obs e = .raise)
    (hpre : ∀ j, j < N → 1 ≤ j → continues (obs j) = true)
    (hN : obs N = .ok stN) (heN' : stN.error = false)
    (hact : stN.state = "ACTIVE") (hle : N ≤ max_retries) :
    wait_for_file_processing true obs = (true, N) := by
  have ht : isTerminal stN = true := by
    simp [isTerminal, hact]
  have hres : terminalResult stN = true := by
    simp [terminalResult, hact, heN']
  have := wait_terminal obs st0 stN N h0 he0 hpre hN ht (by omega) hle
  rwa [hres] at this

/-- Witness for C4: the lookup raises on attempt 1, attempt 2 reports
PROCESSING, attempt 3 reports ACTIVE; the poller succeeds with exactly 3
attempts consumed, the raising attempt included. -/
theorem awaitReady_recovers_from_lookup_error_witness :
    wait_for_file_processing true
      (fun j => if j == 1 then Lookup.raise
                else if j < 3 then Lookup.ok ⟨false, "PROCESSING"⟩
                else Lookup.ok ⟨false, "ACTIVE"⟩) = (true, 3) :=
  awaitReady_recovers_from_lookup_error _ ⟨false, "PROCESSING"⟩
    ⟨false, "ACTIVE"⟩ 3 1 (by decide) (by decide) (by decide) (by decide)
    (by decide) (by decide) (by decide) (by decide) (by decide) (by decide)

/-- C5: `wait_for_file_processing` fails with zero loop attempts consumed
when (1) the handle lacks the `name` attribute, (2) the initial status
lookup raises, or (3) an error payload is attached to the initial status. -/
theorem awaitReady_precondition_failures :
    (∀ obs : Nat → Lookup,
      wait_for_file_processing false obs = (false, 0)) ∧
    (∀ obs : Nat → Lookup, obs 0 = .raise →
      wait_for_file_processing true obs = (false, 0)) ∧
    (∀ (obs : Nat → Lookup) (st : FileStatus), obs 0 = .ok st →
      st.error = true →
      wait_for_file_processing true obs = (false, 0)) := by
  refine ⟨fun obs => rfl, fun obs h => ?_, fun obs st h he => ?_⟩
  · simp [wait_for_file_processing, h]
  · simp [wait_for_file_processing, h, he]

/-- Witness for C5: the three immediate-failure cases at concrete
observation sequences, each with zero loop attempts consumed. -/
theorem awaitReady_precondition_failures_witness :
    wait_for_file_processing false
      (fun _ => Lookup.ok ⟨false, "ACTIVE"⟩) = (false, 0) ∧
    wait_for_file_processing true (fun _ => Lookup.raise) = (false, 0) ∧
    wait_for_file_processing true
      (fun _ => Lookup.ok ⟨true, "ACTIVE"⟩) = (false, 0) :=
  ⟨awaitReady_precondition_failures.1 _,
   awaitReady_precondition_failures.2.1 _ rfl,
   awaitReady_precondition_failures.2.2 _ ⟨true, "ACTIVE"⟩ rfl rfl⟩

/-- C9: on every loop attempt, the attached-error check precedes the state
check: if the status observed on attempt `N` carries an error payload, the
poller returns failure after exactly `N` attempts even though the state
observed on that same attempt is "ACTIVE". -/
theorem awaitReady_error_check_precedes_state_check (obs : Nat → Lookup)
    (st0 stN : FileStatus) (N : Nat)
    (h0 : obs 0 = .ok st0) (he0 : st0.error = false)
    (hpre : ∀ j, j < N → 1 ≤ j → continues (obs j) = true)
    (hN : obs N = .ok stN) (herr : stN.error = true)
    (hact : stN.state = "ACTIVE")
    (h1 : 1 ≤ N) (hle : N ≤ max_retries) :
    wait_for_file_processing true obs = (false, N) := by
  have ht : isTerminal stN = true := by
    simp [isTerminal, herr]
  have hres : terminalResult stN = false := by
    simp [terminalResult, herr]
  have := wait_terminal obs st0 stN N h0 he0 hpre hN ht h1 hle
  rwa [hres] at this

/-- Witness for C9: attempt 1 observes state ACTIVE with an attached error;
the poller returns failure after exactly that one attempt. -/
theorem awaitReady_error_check_precedes_state_check_witness :
    wait_for_file_processing true
      (fun j => if j == 0 then Lookup.ok ⟨false, "PROCESSING"⟩
                else Lookup.ok ⟨true, "ACTIVE"⟩) = (false, 1) :=
  awaitReady_error_check_precedes_state_check _ ⟨false, "PROCESSING"⟩
    ⟨true, "ACTIVE"⟩ 1 (by decide) (by decide) (by decide) (by decide)
    (by decide) (by decide) (by decide) (by decide)

/-- A Python exception value as the endpoint handlers see it: a plain
exception carrying a message, a `fastapi.HTTPException` carrying a status
code and a detail string, or the `FileNotFoundError` that `os.unlink` raises
on a missing path. -/
inductive Exc where
  | generic : String → Exc
  | httpExc : Nat → String → Exc
  | fileNotFound : String → Exc
deriving DecidableEq, Repr

/-- `str(e)` on an exception: an `HTTPException` prints as
"<code>: <detail>", `os.unlink`'s error names the missing path. -/
def excStr : Exc → String
  | .generic m => m
  | .httpExc c d => toString c ++ ": " ++ d
  | .fileNotFound p => "No such file or directory: " ++ p

/-- The five pipeline stages of the spec: ingest, upload, poll for
readiness, generate, delegate. -/
inductive Stage where
  | ingest | upload | poll | generate | delegate
deriving DecidableEq, Repr

/-- Request-local state threaded through a handler: whether the temporary
video file currently exists on disk, and the stages invoked so far. -/
structure St where
  fs : Bool
  stages : List Stage
deriving DecidableEq, Repr

/-- Record the invocation of a stage. -/
def push (s : St) (g : Stage) : St :=
  { s with stages := s.stages ++ [g] }

/-- `os.unlink(path)`: deletes the file if present; raises
`FileNotFoundError` if the path does not exist. -/
def unlink (path : String) (s : St) : Except (Exc × St) St :=
  if s.fs then .ok { s with fs := false }
  else .error (.fileNotFound path, s)

/-- The HTTP outcome of one request: a JSON success body (key-value pairs)
or an `HTTPException` escaping the handler with a status code and detail. -/
inductive Outcome where
  | ok : List (String × String) → Outcome
  | httpError : Nat → String → Outcome
deriving DecidableEq, Repr

/-- Result of running a `process_video` handler on one request: the HTTP
outcome, whether the temporary file still exists afterwards, and the stages
invoked. -/
structure RunResult where
  outcome : Outcome
  fsFinal : Bool
  stages : List Stage
deriving DecidableEq, Repr

/-- The environment of one request to the src/app.py handler: which local
and remote operations succeed, the messages of those that raise, the status
observations the poller sees, and the remote results. -/
structure Env where
  createOk : Bool
  createErrMsg : String
  readOk : Bool
  readErrMsg : String
  uploadOk : Bool
  uploadErrMsg : String
  hasName : Bool
  obs : Nat → Lookup
  genOk : Bool
  genErrMsg : String
  genText : String
  agentOk : Bool
  agentErrMsg : String
  agentResult : String
  tmpPath : String

/-- The innermost `try` of src/app.py lines 170-188: generate content; on
success delete the temporary file (line 178), then run the browser agent and
return the success body.  Any exception escapes to its handler. -/
def genBlock (env : Env) (s : St) : Except (Exc × St) (Outcome × St) :=
  let s := push s .generate
  if !env.genOk then .error (.generic env.genErrMsg, s)
  else
    match unlink env.tmpPath s with
    | .error es => .error es
    | .ok s =>
      let s := push s .delegate
      if !env.agentOk then .error (.generic env.agentErrMsg, s)
      else .ok (.ok [("description", env.genText),
                     ("browser_result", env.agentResult)], s)

/-- src/app.py lines 170-197: the innermost `try` with its
`except Exception as gen_error` handler, which re-raises any failure of the
block (generation or agent run alike) as `HTTPException(400,
"Error generating content: " + str(e))`. -/
def genTry (env : Env) (s : St) : Except (Exc × St) (Outcome × St) :=
  match genBlock env s with
  | .ok r => .ok r
  | .error (e, s) =>
    .error (.httpExc 400 ("Error generating content: " ++ excStr e), s)

/-- src/app.py lines 134-197, the body of the middle `try`: check the
temporary file exists (line 137), upload it (line 144), wait for processing
(line 151, raising `HTTPException(400, "File processing timeout. Please try
again.")` on failure), then run the generation block. -/
def innerBlock (env : Env) (s : St) : Except (Exc × St) (Outcome × St) :=
  if !s.fs then .error (.generic "Temporary file not found", s)
  else
    let s := push s .upload
    if !env.uploadOk then .error (.generic env.uploadErrMsg, s)
    else
      let s := push s .poll
      if !(wait_for_file_processing env.hasName env.obs).1 then
        .error (.httpExc 400 "File processing timeout. Please try again.", s)
      else genTry env s

/-- src/app.py lines 134-205: the middle `try` with its `except Exception`
handler, which calls `os.unlink(temp_file_path)` unconditionally (line 201)
and then raises `HTTPException(400, str(e))`.  If the unlink itself raises
(file already deleted), that exception replaces the original one. -/
def innerTry (env : Env) (s : St) : Except (Exc × St) (Outcome × St) :=
  match innerBlock env s with
  | .ok r => .ok r
  | .error (e, s) =>
    match unlink env.tmpPath s with
    | .error (e2, s2) => .error (e2, s2)
    | .ok s2 => .error (.httpExc 400 (excStr e), s2)

/-- src/app.py lines 118-205, the body of the outer `try`: create the
temporary file and write the upload body into it (lines 124-131), then run
the middle try/except block. -/
def outerBlock (env : Env) : Except (Exc × St) (Outcome × St) :=
  let s : St := { fs := false, stages := [Stage.ingest] }
  if !env.createOk then .error (.generic env.createErrMsg, s)
  else
    let s : St := { s with fs := true }
    if !env.readOk then .error (.generic env.readErrMsg, s)
    else innerTry env s

/-- `process_video` of src/app.py (lines 116-211).  The outer
`except Exception` handler (lines 207-211) catches every exception escaping
the body, `HTTPException`s raised by the inner handlers included, and
re-raises `HTTPException(500, str(e))`. -/
def process_video_app (env : Env) : RunResult :=
  match outerBlock env with
  | .ok (o, s) => { outcome := o, fsFinal := s.fs, stages := s.stages }
  | .error (e, s) =>
    { outcome := .httpError 500 (excStr e), fsFinal := s.fs,
      stages := s.stages }

/-- The environment of one request to the src/main.py handler: it has no
upload or polling step, so only creation, body read, generation and the
browser-use execution can fail. -/
structure EnvMain where
  createOk : Bool
  createErrMsg : String
  readOk : Bool
  readErrMsg : String
  genOk : Bool
  genErrMsg : String
  genText : String
  execOk : Bool
  execErrMsg : String
  tmpPath : String

/-- src/main.py lines 39-68, the body of the handler's single `try`: save
the upload to a temporary file, call generation directly on the local path
(no upload, no polling), delete the temporary file (line 59, only on this
path), then run the browser-use delegate and return the success body. -/
def mainBlock (env : EnvMain) : Except (Exc × St) (Outcome × St) :=
  let s : St := { fs := false, stages := [Stage.ingest] }
  if !env.createOk then .error (.generic env.createErrMsg, s)
  else
    let s : St := { s with fs := true }
    if !env.readOk then .error (.generic env.readErrMsg, s)
    else
      let s := push s .generate
      if !env.genOk then .error (.generic env.genErrMsg, s)
      else
        match unlink env.tmpPath s with
        | .error es => .error es
        | .ok s =>
          let s := push s .delegate
          if !env.execOk then .error (.generic env.execErrMsg, s)
          else .ok (.ok [("prompt", env.genText),
                         ("status", "success")], s)

/-- `process_video` of src/main.py (lines 37-71).  Its only handler
(lines 70-71) turns every exception into `HTTPException(500, str(e))`; no
cleanup is performed on the error path. -/
def process_video_main (env : EnvMain) : RunResult :=
  match mainBlock env with
  | .ok (o, s) => { outcome := o, fsFinal := s.fs, stages := s.stages }
  | .error (e, s) =>
    { outcome := .httpError 500 (excStr e), fsFinal := s.fs,
      stages := s.stages }

/-- A src/main.py request in which generation fails: the temporary file was
created, the request ends in an error response, and no deletion happens. -/
def envMainGenError : EnvMain :=
  { createOk := true, createErrMsg := "create failed"
    readOk := true, readErrMsg := "read failed"
    genOk := false, genErrMsg := "generation rejected", genText := "steps"
    execOk := true, execErrMsg := "browser failed"
    tmpPath := "/tmp/video_main.mp4" }

/-- A src/app.py request in which reading the upload body fails after the
temporary file has been created (src/app.py line 127 raising inside the
`with` block of lines 124-131). -/
def envAppReadError : Env :=
  { createOk := true, createErrMsg := "create failed"
    readOk := false, readErrMsg := "read failed"
    uploadOk := true, uploadErrMsg := "upload failed"
    hasName := true, obs := fun _ => Lookup.ok ⟨false, "ACTIVE"⟩
    genOk := true, genErrMsg := "generation rejected", genText := "steps"
    agentOk := true, agentErrMsg := "agent failed", agentResult := "outcome"
    tmpPath := "/tmp/video_app.mp4" }

/-- Counterexample to C6: two requests in which the temporary file was
created yet still exists after the request completes — a src/main.py request
whose generation call fails (the error path performs no deletion), and a
src/app.py request whose upload-body read fails after file creation (the
failure escapes directly to the outer handler, which does not delete). -/
theorem processVideo_cleanup_cex :
    (envMainGenError.createOk = true ∧
      (process_video_main envMainGenError).fsFinal = true) ∧
    (envAppReadError.createOk = true ∧
      (process_video_app envAppReadError).fsFinal = true) := by
  decide

/-- C6 (amended): in the src/app.py variant, whenever the temporary file is
created and the upload body is successfully written into it, the file is
absent after the request completes on every outcome (success, upload error,
poll timeout, generation error, delegate error); in the src/main.py variant
this holds only when generation also succeeds.  (As created, the claim fails:
src/app.py leaks the file when reading the upload body fails after creation,
and src/main.py leaks it on any failure before its success-path deletion,
e.g. a generation error.) -/
theorem processVideo_cleanup_amended (a : Env) (m : EnvMain)
    (ha1 : a.createOk = true) (ha2 : a.readOk = true)
    (hm1 : m.createOk = true) (hm2 : m.readOk = true)
    (hm3 : m.genOk = true) :
    (process_video_app a).fsFinal = false ∧
    (process_video_main m).fsFinal = false := by
  constructor
  · by_cases hu : a.uploadOk <;>
    by_cases hp : (wait_for_file_processing a.hasName a.obs).1 <;>
    by_cases hg : a.genOk <;>
    by_cases hag : a.agentOk <;>
    simp [process_video_app, outerBlock, innerTry, innerBlock, genTry,
      genBlock, unlink, push, ha1, ha2, hu, hp, hg, hag]
  · by_cases he : m.execOk <;>
    simp [process_video_main, mainBlock, unlink, push, hm1, hm2, hm3, he]

/-- Witness for the amended C6 at concrete environments (an app.py request
that times out polling, and a successful main.py request). -/
theorem processVideo_cleanup_amended_witness :
    (process_video_app
      { createOk := true, createErrMsg := "c", readOk := true
        readErrMsg := "r", uploadOk := true, uploadErrMsg := "u"
        hasName := true, obs := fun _ => Lookup.ok ⟨false, "PROCESSING"⟩
        genOk := true, genErrMsg := "g", genText := "steps"
        agentOk := true, agentErrMsg := "a", agentResult := "outcome"
        tmpPath := "/tmp/w1.mp4" }).fsFinal = false ∧
    (process_video_main
      { createOk := true, createErrMsg := "c", readOk := true
        readErrMsg := "r", genOk := true, genErrMsg := "g"
        genText := "steps", execOk := true, execErrMsg := "e"
        tmpPath := "/tmp/w2.mp4" }).fsFinal = false :=
  processVideo_cleanup_amended _ _ rfl rfl rfl rfl rfl

/-- A src/app.py request that is healthy except that the asset never leaves
PROCESSING, so the poller exhausts its budget: a processing fault that the
claim (and the code's own `HTTPException(status_code=400, ...)` at lines
152-155) intends to answer with a 400-class status. -/
def envAppTimeout : Env :=
  { createOk := true, createErrMsg := "create failed"
    readOk := true, readErrMsg := "read failed"
    uploadOk := true, uploadErrMsg := "upload failed"
    hasName := true, obs := fun _ => Lookup.ok ⟨false, "PROCESSING"⟩
    genOk := true, genErrMsg := "generation rejected", genText := "steps"
    agentOk := true, agentErrMsg := "agent failed", agentResult := "outcome"
    tmpPath := "/tmp/video_timeout.mp4" }

/-- A src/main.py request whose generation call is rejected: a
caller/processing fault that the claim says is answered 400-class. -/
def envMainGenRejected : EnvMain :=
  { createOk := true, createErrMsg := "create failed"
    readOk := true, readErrMsg := "read failed"
    genOk := false, genErrMsg := "generation rejected", genText := "steps"
    execOk := true, execErrMsg := "browser failed"
    tmpPath := "/tmp/video_main2.mp4" }

/-- C7 (code bug): processing faults are NOT answered with a 400-class
status.  In src/app.py every `HTTPException(400, ...)` raised inside the
outer `try` (poll timeout at lines 152-155, generation error at lines
194-197, the re-raise at line 205) is caught again by the outer
`except Exception` (lines 207-211) and re-raised as status 500, its detail
string double-prefixed with the swallowed 400 codes; src/main.py's only
handler likewise answers 500 for every failure.  A poll-timeout request is
answered `500` with detail "400: 400: File processing timeout. Please try
again.", and a rejected generation in src/main.py is answered `500`. -/
theorem processVideo_faults_answered_500 :
    (process_video_app envAppTimeout).outcome =
      .httpError 500 "400: 400: File processing timeout. Please try again." ∧
    (process_video_main envMainGenRejected).outcome =
      .httpError 500 "generation rejected" := by
  decide

/-- The all-success environment for the src/app.py handler (the asset is
ACTIVE on the first poll). -/
def envAppAllOk : Env :=
  { createOk := true, createErrMsg := "create failed"
    readOk := true, readErrMsg := "read failed"
    uploadOk := true, uploadErrMsg := "upload failed"
    hasName := true
    obs := fun n => if n == 0 then Lookup.ok ⟨false, "PROCESSING"⟩
                    else Lookup.ok ⟨false, "ACTIVE"⟩
    genOk := true, genErrMsg := "generation rejected", genText := "steps"
    agentOk := true, agentErrMsg := "agent failed", agentResult := "outcome"
    tmpPath := "/tmp/video_ok.mp4" }

/-- The all-success environment for the src/main.py handler, with the same
generated text. -/
def envMainAllOk : EnvMain :=
  { createOk := true, createErrMsg := "create failed"
    readOk := true, readErrMsg := "read failed"
    genOk := true, genErrMsg := "generation rejected", genText := "steps"
    execOk := true, execErrMsg := "browser failed"
    tmpPath := "/tmp/video_ok2.mp4" }

/-- Counterexample to C8: on fully successful identical inputs the two
handlers do NOT perform the same stage sequence — src/app.py runs ingest,
upload, poll, generate, delegate, while src/main.py runs only ingest,
generate, delegate (it never uploads to the remote service and never polls),
and their success bodies differ. -/
theorem processVideo_same_pipeline_cex :
    (process_video_app envAppAllOk).stages =
      [Stage.ingest, Stage.upload, Stage.poll, Stage.generate,
       Stage.delegate] ∧
    (process_video_main envMainAllOk).stages =
      [Stage.ingest, Stage.generate, Stage.delegate] ∧
    (process_video_app envAppAllOk).stages ≠
      (process_video_main envMainAllOk).stages ∧
    (process_video_app envAppAllOk).outcome ≠
      (process_video_main envMainAllOk).outcome := by
  decide

/-- C8 (amended): the two handlers share only the ingest → generate →
delegate skeleton (and both translate every failure to HTTP 500); they are
not equivalent stage-for-stage: on any fully successful request src/app.py
performs ingest, upload, poll, generate, delegate and returns a
description/browser_result body, while src/main.py performs only ingest,
generate, delegate — no upload and no readiness polling — and returns a
prompt/status body. -/
theorem processVideo_pipelines_differ (a : Env) (m : EnvMain)
    (ha1 : a.createOk = true) (ha2 : a.readOk = true)
    (ha3 : a.uploadOk = true)
    (ha4 : (wait_for_file_processing a.hasName a.obs).1 = true)
    (ha5 : a.genOk = true) (ha6 : a.agentOk = true)
    (hm1 : m.createOk = true) (hm2 : m.readOk = true)
    (hm3 : m.genOk = true) (hm4 : m.execOk = true) :
    (process_video_app a).outcome =
      .ok [("description", a.genText), ("browser_result", a.agentResult)] ∧
    (process_video_app a).stages =
      [Stage.ingest, Stage.upload, Stage.poll, Stage.generate,
       Stage.delegate] ∧
    (process_video_main m).outcome =
      .ok [("prompt", m.genText), ("status", "success")] ∧
    (process_video_main m).stages =
      [Stage.ingest, Stage.generate, Stage.delegate] := by
  refine ⟨?_, ?_, ?_, ?_⟩ <;>
  simp [process_video_app, outerBlock, innerTry, innerBlock, genTry,
    genBlock, unlink, push, process_video_main, mainBlock,
    ha1, ha2, ha3, ha4, ha5, ha6, hm1, hm2, hm3, hm4]

/-- Witness for the amended C8 at the concrete all-success environments. -/
theorem processVideo_pipelines_differ_witness :
    (process_video_app envAppAllOk).outcome =
      .ok [("description", "steps"), ("browser_result", "outcome")] ∧
    (process_video_app envAppAllOk).stages =
      [Stage.ingest, Stage.upload, Stage.poll, Stage.generate,
       Stage.delegate] ∧
    (process_video_main envMainAllOk).outcome =
      .ok [("prompt", "steps"), ("status", "success")] ∧
    (process_video_main envMainAllOk).stages =
      [Stage.ingest, Stage.generate, Stage.delegate] :=
  processVideo_pipelines_differ envAppAllOk envMainAllOk rfl rfl rfl
    (by decide) rfl rfl rfl rfl rfl rfl

/-- C10: in the src/app.py variant, when everything succeeds up to content
generation and the browser-agent run then raises, the temporary file was
already deleted (line 178), yet the middle `except` handler (line 201)
unconditionally deletes it again; that second `os.unlink` on the missing
path raises `FileNotFoundError`, which replaces the original exception, so
the caller receives a 500 whose detail describes the file-deletion failure
(naming the temporary path), not the automation failure. -/
theorem processVideo_agent_failure_masked (a : Env)
    (h1 : a.createOk = true) (h2 : a.readOk = true) (h3 : a.uploadOk = true)
    (h4 : (wait_for_file_processing a.hasName a.obs).1 = true)
    (h5 : a.genOk = true) (h6 : a.agentOk = false) :
    (process_video_app a).outcome =
      .httpError 500 (excStr (Exc.fileNotFound a.tmpPath)) ∧
    (process_video_app a).fsFinal = false := by
  simp [process_video_app, outerBlock, innerTry, innerBlock, genTry,
    genBlock, unlink, push, excStr, h1, h2, h3, h4, h5, h6]

/-- Witness for C10: a concrete request whose agent run fails after
successful generation; the response is a 500 naming the already-deleted
temporary path instead of the agent's error. -/
theorem processVideo_agent_failure_masked_witness :
    (process_video_app
      { createOk := true, createErrMsg := "c", readOk := true
        readErrMsg := "r", uploadOk := true, uploadErrMsg := "u"
        hasName := true
        obs := fun n => if n == 0 then Lookup.ok ⟨false, "PROCESSING"⟩
                        else Lookup.ok ⟨false, "ACTIVE"⟩
        genOk := true, genErrMsg := "g", genText := "steps"
        agentOk := false, agentErrMsg := "agent crashed"
        agentResult := "outcome"
        tmpPath := "/tmp/w3.mp4" }).outcome =
      .httpError 500 (excStr (Exc.fileNotFound "/tmp/w3.mp4")) ∧
    (process_video_app
      { createOk := true, createErrMsg := "c", readOk := true
        readErrMsg := "r", uploadOk := true, uploadErrMsg := "u"
        hasName := true
        obs := fun n => if n == 0 then Lookup.ok ⟨false, "PROCESSING"⟩
                        else Lookup.ok ⟨false, "ACTIVE"⟩
        genOk := true, genErrMsg := "g", genText := "steps"
        agentOk := false, agentErrMsg := "agent crashed"
        agentResult := "outcome"
        tmpPath := "/tmp/w3.mp4" }).fsFinal = false :=
  processVideo_agent_failure_masked _ rfl rfl rfl (by decide) rfl rfl

end AgentHack
